import Mathlib

/-!
Shallow embedding of the `json-logger-server` repository.

Source files embedded:
- `src/app.py`: a Dash dashboard with one callback, `fetch_fitbit_data`,
  that issues six sequential HTTP GET requests (heart rate, steps, sleep,
  activity, weight, SPO2) and turns each JSON response into a Plotly
  figure.  The callback is modelled as a pure function of the token, the
  selected date, and the six (status, parsed-JSON-body) responses; the
  hash-seed-dependent iteration order of Python's `set` is made explicit
  as a parameter.  Raised exceptions are modelled with `Except String`;
  the instrumented result also records which requests were issued, in
  order, so that control-flow claims can be stated.
- `src/main.py`: a FastAPI endpoint `POST /log` that appends a formatted
  line to a log file and echoes the JSON body.
-/

/-! ## Plotly figures (`plotly.graph_objs`), as far as `app.py` uses them -/

/-- A JSON-ish scalar appearing on a trace axis: the heart/steps/weight/SPO2
charts plot numbers, the sleep chart plots stage labels (strings). -/
inductive Val where
  | num (n : Int)
  | str (s : String)
deriving DecidableEq

/-- The two trace kinds built by `app.py`: `go.Scatter(x, y, mode, marker, name)`
and `go.Bar(x, y, marker_color)`. -/
inductive Trace where
  | scatter (x : List String) (y : List Val) (mode : String)
      (markerColor : Option String) (name : String)
  | bar (x : List String) (y : List Int) (markerColor : String)
deriving DecidableEq

/-- A `go.Figure`: traces plus the layout fields `app.py` ever sets.
`go.Figure()` is the record with all defaults. -/
structure Figure where
  traces : List Trace := []
  title : Option String := none
  xaxis_title : Option String := none
  yaxis_title : Option String := none
  yaxis_type : Option String := none
deriving DecidableEq

/-- The value of the bare expression `go.Figure()`. -/
def blankFigure : Figure := {}

/-! ## Shapes of the six parsed JSON response bodies -/

/-- One element of an intraday `dataset` array: `{"time": ..., "value": ...}`.
Both keys are accessed by direct indexing in `app.py`, so they are modelled
as always present. -/
structure DataPoint where
  time : String
  value : Int
deriving DecidableEq

/-- The object stored under a namespaced intraday key; `app.py` always
indexes its `"dataset"` member directly. -/
structure Dataset where
  dataset : List DataPoint
deriving DecidableEq

/-- Heart-rate body: `hr_data["activities-heart-intraday"]` is indexed
directly (a `KeyError` when absent), hence the `Option`. -/
structure HeartBody where
  activities_heart_intraday : Option Dataset
deriving DecidableEq

/-- Steps body: `"activities-steps-intraday"` is looked up with an explicit
`in` guard in `app.py`, hence the `Option`. -/
structure StepsBody where
  activities_steps_intraday : Option Dataset
deriving DecidableEq

/-- Weight body: `"weight-intraday"` is looked up with an `in` guard. -/
structure WeightBody where
  weight_intraday : Option Dataset
deriving DecidableEq

/-- SPO2 body: `"spo2-intraday"` is looked up with an `in` guard. -/
structure Spo2Body where
  spo2_intraday : Option Dataset
deriving DecidableEq

/-- One `{"dateTime": ..., "level": ...}` point of `levels.data`; both keys
are indexed directly in `app.py`. -/
structure SleepPoint where
  dateTime : String
  level : String
deriving DecidableEq

/-- The `levels` object of a sleep record.  `summary` maps a stage name to
an object with a `"minutes"` member, modelled as association lists (Python
dicts with string keys); `data` is the interval-point array.  Both are
fetched with `.get(..., {})` in `app.py`, hence the `Option`s. -/
structure Levels where
  summary : Option (List (String × List (String × Int)))
  data : Option (List SleepPoint)
deriving DecidableEq

/-- One sleep session object.  `record.get("isMainSleep")` is used as a
truth value, modelled as a `Bool` (an absent key behaves like `false`). -/
structure SleepRecord where
  isMainSleep : Bool
  levels : Option Levels
deriving DecidableEq

/-- Sleep body: `sleep_data.get("sleep", [])`. -/
structure SleepBody where
  sleep : Option (List SleepRecord)
deriving DecidableEq

/-- Activity body: `activity_data.get("summary", {})`; the summary object is
modelled as an association list of its integer-valued members, so that
Python's truthiness test `if summary:` becomes a non-emptiness test. -/
structure ActivityBody where
  summary : Option (List (String × Int))
deriving DecidableEq

/-- An HTTP response as `app.py` consumes it: `status_code` and the parsed
JSON body. -/
structure Response (α : Type) where
  status : Nat
  body : α
deriving DecidableEq

/-- The six responses of one submission, indexed by metric. -/
structure ApiResponses where
  heart : Response HeartBody
  steps : Response StepsBody
  sleep : Response SleepBody
  activity : Response ActivityBody
  weight : Response WeightBody
  spo2 : Response Spo2Body

/-- The six outbound requests, used to record which requests were issued. -/
inductive Metric where
  | heart
  | steps
  | sleep
  | activity
  | weight
  | spo2
deriving DecidableEq

/-- The order in which `fetch_fitbit_data` issues its requests
(lines 88, 108, 127, 177, 203, 222 of `src/app.py`). -/
def issueOrder : List Metric :=
  [Metric.heart, Metric.steps, Metric.sleep, Metric.activity, Metric.weight, Metric.spo2]

/-- Status code of the response a given metric's request would receive. -/
def statusOf (api : ApiResponses) : Metric → Nat
  | Metric.heart => api.heart.status
  | Metric.steps => api.steps.status
  | Metric.sleep => api.sleep.status
  | Metric.activity => api.activity.status
  | Metric.weight => api.weight.status
  | Metric.spo2 => api.spo2.status

/-! ## The sleep reduction (`src/app.py` lines 132-143) -/

/-- Per-stage total minutes, the `sleep_stages` dict.  Its insertion order
is `deep, light, rem, wake`. -/
structure SleepStages where
  deep : Int
  light : Int
  rem : Int
  wake : Int
deriving DecidableEq

/-- The initial `sleep_stages = {"deep": 0, "light": 0, "rem": 0, "wake": 0}`. -/
def initStages : SleepStages := ⟨0, 0, 0, 0⟩

/-- `record.get("levels", {}).get("summary", {})`. -/
def recordSummary (r : SleepRecord) : List (String × List (String × Int)) :=
  match r.levels with
  | none => []
  | some l => l.summary.getD []

/-- `record.get("levels", {}).get("data", [])`. -/
def recordData (r : SleepRecord) : List SleepPoint :=
  match r.levels with
  | none => []
  | some l => l.data.getD []

/-- `summary.get(stage, {}).get("minutes", 0)`. -/
def stageMinutes (summary : List (String × List (String × Int))) (stage : String) : Int :=
  (((summary.lookup stage).getD []).lookup "minutes").getD 0

/-- The four assignments `sleep_stages[stage] = summary.get(stage, {}).get("minutes", 0)`
performed for one record: every key of the dict is overwritten. -/
def recordStages (r : SleepRecord) : SleepStages :=
  ⟨stageMinutes (recordSummary r) "deep",
   stageMinutes (recordSummary r) "light",
   stageMinutes (recordSummary r) "rem",
   stageMinutes (recordSummary r) "wake"⟩

/-- The `(point["dateTime"], point["level"])` pairs appended to
`sleep_series` for one record. -/
def recordPoints (r : SleepRecord) : List (String × String) :=
  (recordData r).map (fun p => (p.dateTime, p.level))

/-- The body of the `for record in sleep_data.get("sleep", [])` loop:
a main-sleep record overwrites all four stage minutes and appends its
interval points; any other record leaves the state unchanged. -/
def sleepAccum (acc : SleepStages × List (String × String)) (record : SleepRecord) :
    SleepStages × List (String × String) :=
  if record.isMainSleep then (recordStages record, acc.2 ++ recordPoints record)
  else acc

/-- The whole loop over the sleep records, producing the final
`(sleep_stages, sleep_series)` pair. -/
def sleepFold (records : List SleepRecord) : SleepStages × List (String × String) :=
  records.foldl sleepAccum (initStages, [])

/-- The `stage_colors` dict lookup `stage_colors.get(stage, "gray")`
(lines 149-156 of `src/app.py`). -/
def stage_colors (stage : String) : String :=
  if stage = "wake" then "red"
  else if stage = "light" then "blue"
  else if stage = "deep" then "purple"
  else if stage = "rem" then "green"
  else if stage = "asleep" then "blue"
  else if stage = "restless" then "orange"
  else "gray"

/-! ## The six per-metric fetch-and-transform steps

Each step models one `--- Fetch ... ---` block of the `try:` body.  A
`.error` value models a raised exception (the explicit
`raise Exception(...)` on a non-200 status, a `KeyError` on a direct
index of an absent key, or the `NameError` raised by the `else:` branches
that reference a variable only assigned in the `if` branch). -/

/-- Heart-rate block, `src/app.py` lines 88-105.  Note the two failure
modes beyond the status check: `hr_data["activities-heart-intraday"]` is a
direct index, and the `else:` branch calls `fig_hr.update_layout` although
`fig_hr` is only ever assigned inside the `if hr_series:` branch. -/
def hrStep (selected_date : String) (r : Response HeartBody) : Except String Figure :=
  if r.status ≠ 200 then Except.error "Heart rate request failed"
  else
    match r.body.activities_heart_intraday with
    | none => Except.error "KeyError: activities-heart-intraday"
    | some intraday =>
      let hr_series := intraday.dataset
      if hr_series ≠ [] then
        Except.ok
          { traces := [Trace.scatter (hr_series.map (fun dp => dp.time))
              (hr_series.map (fun dp => Val.num dp.value)) "lines" none "Heart Rate"],
            title := some ("Heart Rate on " ++ selected_date),
            xaxis_title := some "Time",
            yaxis_title := some "BPM" }
      else Except.error "NameError: fig_hr is not defined"

/-- Steps block, `src/app.py` lines 108-124: the namespaced key is guarded
with `if "activities-steps-intraday" in steps_data else []`, and
`fig_steps = go.Figure()` is assigned before the branch, so the empty
series lands in a well-defined no-data figure. -/
def stepsStep (selected_date : String) (r : Response StepsBody) : Except String Figure :=
  if r.status ≠ 200 then Except.error "Steps request failed"
  else
    let steps_series := match r.body.activities_steps_intraday with
      | some d => d.dataset
      | none => []
    if steps_series ≠ [] then
      Except.ok
        { traces := [Trace.scatter (steps_series.map (fun dp => dp.time))
            (steps_series.map (fun dp => Val.num dp.value)) "lines" none "Steps"],
          title := some ("Steps on " ++ selected_date),
          xaxis_title := some "Time",
          yaxis_title := some "Steps per Minute" }
    else Except.ok { title := some "No Steps Data Available" }

/-- The trace built for one stage label (lines 157-165 of `src/app.py`):
the timestamps of that stage's points, the label replicated on the y-axis,
discrete markers in the stage's (or the fallback) color. -/
def sleepTrace (sleep_series : List (String × String)) (stage : String) : Trace :=
  let times := (sleep_series.filter (fun p => p.2 == stage)).map (fun p => p.1)
  Trace.scatter times (List.replicate times.length (Val.str stage)) "markers"
    (some (stage_colors stage)) stage

/-- The populated sleep figure (lines 157-172): one trace per distinct
stage, in the stage enumeration order `o` of `set(...)`, plus the layout. -/
def sleepFig (o : List String → List String) (selected_date : String)
    (sleep_series : List (String × String)) : Figure :=
  { traces := (o (sleep_series.map (fun p => p.2))).map (sleepTrace sleep_series),
    title := some ("Sleep Stages on " ++ selected_date),
    xaxis_title := some "Time",
    yaxis_title := some "Stage",
    yaxis_type := some "category" }

/-- Sleep block, `src/app.py` lines 127-174.  The parameter `o` models the
iteration order of `set([s for _, s in sleep_series])`: Python enumerates
the distinct elements in a hash-seed-dependent order, so the embedding
takes the enumeration function as an explicit argument. -/
def sleepStep (o : List String → List String) (selected_date : String)
    (r : Response SleepBody) : Except String Figure :=
  if r.status ≠ 200 then Except.error "Sleep data request failed"
  else
    let sleep_series := (sleepFold (r.body.sleep.getD [])).2
    if sleep_series ≠ [] then Except.ok (sleepFig o selected_date sleep_series)
    else Except.ok { title := some "No Sleep Data Available" }

/-- Activity block, `src/app.py` lines 177-200.  `if summary:` is Python
truthiness: an absent or empty summary dict takes the `else:` branch, which
references `fig_activity` although it is only assigned in the `if` branch. -/
def activityStep (selected_date : String) (r : Response ActivityBody) : Except String Figure :=
  if r.status ≠ 200 then Except.error "Activity request failed"
  else
    let summary := r.body.summary.getD []
    if summary ≠ [] then
      Except.ok
        { traces := [Trace.bar ["Sedentary", "Light", "Moderate", "Vigorous"]
            [(summary.lookup "sedentaryMinutes").getD 0,
             (summary.lookup "lightlyActiveMinutes").getD 0,
             (summary.lookup "moderatelyActiveMinutes").getD 0,
             (summary.lookup "veryActiveMinutes").getD 0] "green"],
          title := some ("Activity Minutes on " ++ selected_date),
          xaxis_title := some "Activity Type",
          yaxis_title := some "Minutes" }
    else Except.error "NameError: fig_activity is not defined"

/-- Weight block, `src/app.py` lines 203-219, same guarded pattern as steps. -/
def weightStep (selected_date : String) (r : Response WeightBody) : Except String Figure :=
  if r.status ≠ 200 then Except.error "Weight request failed"
  else
    let weight_series := match r.body.weight_intraday with
      | some d => d.dataset
      | none => []
    if weight_series ≠ [] then
      Except.ok
        { traces := [Trace.scatter (weight_series.map (fun dp => dp.time))
            (weight_series.map (fun dp => Val.num dp.value)) "lines" none "Weight"],
          title := some ("weight on " ++ selected_date),
          xaxis_title := some "Time",
          yaxis_title := some "Weight" }
    else Except.ok { title := some "No Weight Data Available" }

/-- SPO2 block, `src/app.py` lines 222-245, same guarded pattern as steps. -/
def spo2Step (selected_date : String) (r : Response Spo2Body) : Except String Figure :=
  if r.status ≠ 200 then Except.error "SPO2 request failed"
  else
    let spo2_series := match r.body.spo2_intraday with
      | some d => d.dataset
      | none => []
    if spo2_series ≠ [] then
      Except.ok
        { traces := [Trace.scatter (spo2_series.map (fun dp => dp.time))
            (spo2_series.map (fun dp => Val.num dp.value)) "lines" none "SPO2"],
          title := some ("SPO2 on " ++ selected_date),
          xaxis_title := some "Time",
          yaxis_title := some "spo2 per Minute" }
    else Except.ok { title := some "No SPO2 Data Available" }

/-! ## The callback itself -/

/-- The value the callback returns from every failure path: on missing
input (line 72) and in the `except` handler (line 291) the Python function
returns the pair `go.Figure(), True` — a single blank figure plus the
error flag, although the callback decorator declares seven outputs. -/
structure CallbackOutput where
  figures : List Figure
  showError : Bool
deriving DecidableEq

/-- The literal `return go.Figure(), True`. -/
def uniformFailure : CallbackOutput := ⟨[blankFigure], true⟩

/-- The callback `fetch_fitbit_data` of `src/app.py` (lines 70-291).
Arguments: the `set` enumeration order `o` (interpreter state), the
callback inputs `n_clicks`, `token`, `selected_date`, and the six
responses the external API would return.  The second component of the
result records which requests were actually issued, in order; a request
is recorded as issued before its status is checked, because
`requests.get` happens before the check in the source. -/
def fetch_fitbit_data (o : List String → List String) (n_clicks : Nat)
    (token selected_date : String) (api : ApiResponses) :
    CallbackOutput × List Metric :=
  if token = "" ∨ selected_date = "" then (uniformFailure, [])
  else
    match hrStep selected_date api.heart with
    | Except.error _ => (uniformFailure, [Metric.heart])
    | Except.ok fig_hr =>
      match stepsStep selected_date api.steps with
      | Except.error _ => (uniformFailure, [Metric.heart, Metric.steps])
      | Except.ok fig_steps =>
        match sleepStep o selected_date api.sleep with
        | Except.error _ => (uniformFailure, [Metric.heart, Metric.steps, Metric.sleep])
        | Except.ok fig_sleep =>
          match activityStep selected_date api.activity with
          | Except.error _ =>
              (uniformFailure, [Metric.heart, Metric.steps, Metric.sleep, Metric.activity])
          | Except.ok fig_activity =>
            match weightStep selected_date api.weight with
            | Except.error _ =>
                (uniformFailure,
                 [Metric.heart, Metric.steps, Metric.sleep, Metric.activity, Metric.weight])
            | Except.ok fig_weight =>
              match spo2Step selected_date api.spo2 with
              | Except.error _ =>
                  (uniformFailure,
                   [Metric.heart, Metric.steps, Metric.sleep, Metric.activity, Metric.weight,
                    Metric.spo2])
              | Except.ok fig_spo2 =>
                  (⟨[fig_hr, fig_steps, fig_weight, fig_spo2, fig_activity, fig_sleep], false⟩,
                   [Metric.heart, Metric.steps, Metric.sleep, Metric.activity, Metric.weight,
                    Metric.spo2])

/-! ## Models of Python set enumeration orders -/

/-- An admissible iteration order for `set(xs)`: it enumerates exactly the
distinct elements of `xs`, each once, in some order. -/
def ValidSetOrder (o : List String → List String) : Prop :=
  ∀ xs : List String, (o xs).Nodup ∧ ∀ a, a ∈ o xs ↔ a ∈ xs

/-- One admissible set order (one possible interpreter hash state). -/
def pySetDedup : List String → List String := fun xs => xs.dedup

/-- Another admissible set order (another possible interpreter hash state). -/
def pySetDedupRev : List String → List String := fun xs => xs.dedup.reverse

/-! ## The logging service, `src/main.py` -/

/-- A parsed JSON value, the result of `await request.json()`. -/
inductive Json where
  | num (n : Int)
  | str (s : String)
  | bool (b : Bool)
  | null
  | arr (xs : List Json)
  | obj (fields : List (String × Json))

/-- The single-quote character, used by Python's `str()` of dicts/strings. -/
def squote : String := String.mk [Char.ofNat 39]

/-- The double-quote character, used by JSON serialization. -/
def dquote : String := String.mk [Char.ofNat 34]

/-- An opening curly brace. -/
def obrace : String := String.mk [Char.ofNat 123]

/-- A closing curly brace. -/
def cbrace : String := String.mk [Char.ofNat 125]

mutual

/-- Python's `str()` of the object `request.json()` returns: dicts render
with single-quoted keys (string escaping is not modelled), `True`/`False`/
`None` for booleans and null. This is what the f-string
`f"Received JSON: {data}"` in `src/main.py` interpolates. -/
def pyStr : Json → String
  | Json.num n => toString n
  | Json.str s => squote ++ s ++ squote
  | Json.bool b => if b then "True" else "False"
  | Json.null => "None"
  | Json.arr xs => "[" ++ String.intercalate ", " (pyStrList xs) ++ "]"
  | Json.obj fs => obrace ++ String.intercalate ", " (pyStrFields fs) ++ cbrace

/-- Renders each array element. -/
def pyStrList : List Json → List String
  | [] => []
  | x :: xs => pyStr x :: pyStrList xs

/-- Renders each dict entry as `'key': value`. -/
def pyStrFields : List (String × Json) → List String
  | [] => []
  | (k, v) :: fs => (squote ++ k ++ squote ++ ": " ++ pyStr v) :: pyStrFields fs

end

/-- The log file `requests.log`, an append-only list of lines. -/
structure LogFile where
  lines : List String
deriving DecidableEq

/-- `logging.info` under the configured format `"%(asctime)s - %(message)s"`:
one line, timestamp then message, is appended to the file. -/
def logging_info (asctime message : String) (log : LogFile) : LogFile :=
  ⟨log.lines ++ [asctime ++ " - " ++ message]⟩

/-- The `POST /log` handler `log_data` of `src/main.py` (lines 13-18):
logs `f"Received JSON: {data}"` and returns
`{"status": "logged", "received": data}`.  `asctime` is the
server-generated timestamp the logging framework interpolates. -/
def log_data (asctime : String) (log : LogFile) (data : Json) : LogFile × Json :=
  (logging_info asctime ("Received JSON: " ++ pyStr data) log,
   Json.obj [("status", Json.str "logged"), ("received", data)])

/-- Boolean check that `needle` is a leading run of `hay`. -/
def listStartsWith (needle hay : List Char) : Bool :=
  match needle, hay with
  | [], _ => true
  | _ :: _, [] => false
  | a :: ns, b :: hs => a == b && listStartsWith ns hs

/-- Boolean check that `needle` occurs contiguously inside `hay`. -/
def listHasSub (needle hay : List Char) : Bool :=
  match hay with
  | [] => needle.isEmpty
  | _ :: hs => listStartsWith needle hay || listHasSub needle hs

/-- Executable substring test on strings. -/
def strContains (hay needle : String) : Bool := listHasSub needle.data hay.data

/-- Lexicographic order on code points; on `HH:MM:SS` timestamp strings this
is chronological order.  (The core `String` order does not reduce inside the
kernel, so the embedding carries its own executable comparison.) -/
def charListLe : List Char → List Char → Bool
  | [], _ => true
  | _ :: _, [] => false
  | a :: as, b :: bs =>
      if a.toNat < b.toNat then true
      else if b.toNat < a.toNat then false
      else charListLe as bs

/-- Timestamp comparison used to state time-orderedness of the sleep series. -/
def strTimeLe (a b : String) : Bool := charListLe a.data b.data

/-! ## Concrete response fixtures used by witnesses and counterexamples -/

/-- A 200 heart-rate response with one data point. -/
def goodHeart : Response HeartBody := ⟨200, ⟨some ⟨[⟨"00:00:00", 60⟩]⟩⟩⟩

/-- A 200 steps response with one data point. -/
def goodSteps : Response StepsBody := ⟨200, ⟨some ⟨[⟨"00:01:00", 5⟩]⟩⟩⟩

/-- A 200 sleep response with one main-sleep record carrying two interval
points in two distinct stages. -/
def goodSleep : Response SleepBody :=
  ⟨200, ⟨some [⟨true, some ⟨some [("deep", [("minutes", 30)])],
    some [⟨"23:00:00", "deep"⟩, ⟨"23:30:00", "light"⟩]⟩⟩]⟩⟩

/-- A 200 activity response with a non-empty summary. -/
def goodActivity : Response ActivityBody := ⟨200, ⟨some [("sedentaryMinutes", 600)]⟩⟩

/-- A 200 weight response with one data point. -/
def goodWeight : Response WeightBody := ⟨200, ⟨some ⟨[⟨"08:00:00", 70⟩]⟩⟩⟩

/-- A 200 SPO2 response with one data point. -/
def goodSpo2 : Response Spo2Body := ⟨200, ⟨some ⟨[⟨"03:00:00", 96⟩]⟩⟩⟩

/-- All six requests succeed with data. -/
def apiAllGood : ApiResponses :=
  ⟨goodHeart, goodSteps, goodSleep, goodActivity, goodWeight, goodSpo2⟩

/-- Identical to `apiAllGood` except the heart-rate request returns 500. -/
def apiHeartDown : ApiResponses := { apiAllGood with heart := ⟨500, goodHeart.body⟩ }

/-- Identical to `apiAllGood` except the heart-rate body carries an empty
`dataset` array. -/
def apiHeartEmpty : ApiResponses := { apiAllGood with heart := ⟨200, ⟨some ⟨[]⟩⟩⟩ }

/-- Identical to `apiAllGood` except the activity `summary` object is
present but empty. -/
def apiActivityEmpty : ApiResponses := { apiAllGood with activity := ⟨200, ⟨some []⟩⟩ }

/-- Identical to `apiAllGood` except the steps request returns 500. -/
def apiStepsDown : ApiResponses := { apiAllGood with steps := ⟨500, goodSteps.body⟩ }

/-- Executable check that a `(timestamp, stage)` series is time-ordered
under the timestamp comparison. -/
def timeSorted : List (String × String) → Bool
  | [] => true
  | [_] => true
  | p :: q :: rest => strTimeLe p.1 q.1 && timeSorted (q :: rest)

/-- A main-sleep record with 10 deep minutes and a 23:00:00 interval point. -/
def ceRecA : SleepRecord :=
  ⟨true, some ⟨some [("deep", [("minutes", 10)])], some [⟨"23:00:00", "deep"⟩]⟩⟩

/-- A second main-sleep record with 20 deep minutes and an EARLIER
(22:00:00) interval point. -/
def ceRecB : SleepRecord :=
  ⟨true, some ⟨some [("deep", [("minutes", 20)])], some [⟨"22:00:00", "light"⟩]⟩⟩

/-- Two sleep records that differ only in their `levels.summary` objects:
same `isMainSleep` flag and the same `levels.data` points. -/
def SummaryOnlyDiff (r₁ r₂ : SleepRecord) : Prop :=
  r₁.isMainSleep = r₂.isMainSleep ∧ recordData r₁ = recordData r₂

/-- Identical to `apiAllGood` except the main sleep record's
`levels.summary` minutes are different (999 deep, an extra wake entry);
the interval points are unchanged. -/
def apiAltSummary : ApiResponses :=
  { apiAllGood with sleep := ⟨200, ⟨some [⟨true,
      some ⟨some [("deep", [("minutes", 999)]), ("wake", [("minutes", 5)])],
        some [⟨"23:00:00", "deep"⟩, ⟨"23:30:00", "light"⟩]⟩⟩]⟩⟩ }

/-- The figure similarity used for the amended C7: same layout, same
traces up to order. -/
def FigSim (f₁ f₂ : Figure) : Prop :=
  f₁.traces.Perm f₂.traces ∧ f₁.title = f₂.title ∧ f₁.xaxis_title = f₂.xaxis_title ∧
    f₁.yaxis_title = f₂.yaxis_title ∧ f₁.yaxis_type = f₂.yaxis_type

/-- The example body `{"a": 1}` of the logging claim. -/
def exBody : Json := Json.obj [("a", Json.num 1)]

/-- Python's rendering of the parsed body: the text `{'a': 1}`. -/
def pyTextA : String := obrace ++ squote ++ "a" ++ squote ++ ": 1" ++ cbrace

/-- The JSON serialization of the body: the text `{"a": 1}`. -/
def jsonTextA : String := obrace ++ dquote ++ "a" ++ dquote ++ ": 1" ++ cbrace

/-! ## Claim C1 -/

/-- C1 (code_bug evidence): with a non-empty token, a selected date, and the
heart-rate request answering 500 while the other five responses would have
succeeded, the callback discards everything and returns the uniform failure
value — which is the literal `return go.Figure(), True` of lines 72/291: a
SINGLE blank figure plus the flag, not the six blank chart specifications
the claim (and the callback's own seven declared outputs) require. -/
theorem C1_failure_shape :
    fetch_fitbit_data pySetDedup 1 "sometoken" "2025-05-10" apiHeartDown
      = (uniformFailure, [Metric.heart]) ∧
    uniformFailure = ⟨[blankFigure], true⟩ ∧
    uniformFailure.figures.length ≠ 6 :=
  ⟨by decide, rfl, by decide⟩

/-! ## Claim C2 -/

/-- C2 (code_bug evidence): a 200 heart-rate response whose `dataset` is
empty makes the `else:` branch dereference the never-assigned `fig_hr`
(a `NameError`), and a present-but-empty activity summary does the same
with `fig_activity`; the exception collapses the whole submission into the
uniform failure outcome instead of the "no data" chart the claim states. -/
theorem C2_empty_series_crashes :
    hrStep "2025-05-10" ⟨200, ⟨some ⟨[]⟩⟩⟩
      = Except.error "NameError: fig_hr is not defined" ∧
    hrStep "2025-05-10" ⟨200, ⟨none⟩⟩
      = Except.error "KeyError: activities-heart-intraday" ∧
    activityStep "2025-05-10" ⟨200, ⟨some []⟩⟩
      = Except.error "NameError: fig_activity is not defined" ∧
    fetch_fitbit_data pySetDedup 1 "sometoken" "2025-05-10" apiHeartEmpty
      = (uniformFailure, [Metric.heart]) :=
  ⟨rfl, rfl, rfl, by decide⟩

/-! ## Claim C4 -/

/-- C4: with an empty token or no selected date the callback returns the
uniform failure value (error flag `true`) without issuing a single
request — the issued-request trace is empty. -/
theorem C4_short_circuit (o : List String → List String) (n_clicks : Nat)
    (token selected_date : String) (api : ApiResponses)
    (h : token = "" ∨ selected_date = "") :
    fetch_fitbit_data o n_clicks token selected_date api = (uniformFailure, []) := by
  unfold fetch_fitbit_data
  rw [if_pos h]

/-- Witness for C4 at a concrete empty token. -/
theorem C4_witness :
    fetch_fitbit_data pySetDedup 1 "" "2025-05-10" apiAllGood = (uniformFailure, []) :=
  C4_short_circuit pySetDedup 1 "" "2025-05-10" apiAllGood (Or.inl rfl)

/-! ## Claim C5 -/

/-- C5 counterexample: an activity response whose summary object is present
but empty (hence missing all four minute fields) does not chart zeros — the
truthiness test `if summary:` sends it to the `else:` branch, which raises
`NameError`, and the whole submission collapses to the failure outcome. -/
theorem C5_counterexample :
    activityStep "2025-05-10" ⟨200, ⟨some []⟩⟩
      = Except.error "NameError: fig_activity is not defined" ∧
    fetch_fitbit_data pySetDedup 1 "sometoken" "2025-05-10" apiActivityEmpty
      = (uniformFailure, [Metric.heart, Metric.steps, Metric.sleep, Metric.activity]) :=
  ⟨rfl, by decide⟩

/-- C5 as amended: for a present and NON-EMPTY summary object, each of the
four named minute fields defaults to zero when missing, and the bar chart
always carries the fixed category order Sedentary, Light, Moderate,
Vigorous. -/
theorem C5_missing_fields_default_zero (selected_date : String)
    (s : List (String × Int)) (hs : s ≠ []) :
    activityStep selected_date ⟨200, ⟨some s⟩⟩ = Except.ok
      { traces := [Trace.bar ["Sedentary", "Light", "Moderate", "Vigorous"]
          [(s.lookup "sedentaryMinutes").getD 0,
           (s.lookup "lightlyActiveMinutes").getD 0,
           (s.lookup "moderatelyActiveMinutes").getD 0,
           (s.lookup "veryActiveMinutes").getD 0] "green"],
        title := some ("Activity Minutes on " ++ selected_date),
        xaxis_title := some "Activity Type",
        yaxis_title := some "Minutes" } := by
  simp [activityStep, hs]

/-- Witness for C5: a non-empty summary containing none of the four minute
fields charts `[0, 0, 0, 0]` in the fixed category order. -/
theorem C5_witness :
    ([(("steps" : String), (100 : Int))] ≠ ([] : List (String × Int))) ∧
    activityStep "2025-05-10" ⟨200, ⟨some [("steps", 100)]⟩⟩ = Except.ok
      { traces := [Trace.bar ["Sedentary", "Light", "Moderate", "Vigorous"]
          [0, 0, 0, 0] "green"],
        title := some "Activity Minutes on 2025-05-10",
        xaxis_title := some "Activity Type",
        yaxis_title := some "Minutes" } :=
  ⟨by decide, by
    rw [C5_missing_fields_default_zero "2025-05-10" [("steps", 100)] (by decide)]
    with_unfolding_all rfl⟩

/-! ## Claim C10 -/

/-- C10: for steps, weight and SPO2, a 200 response whose body lacks the
namespaced top-level key is treated as an empty series by the guarded
lookup and yields the "no data" figure with zero traces — no exception. -/
theorem C10_guarded_namespaced_keys (selected_date : String) :
    stepsStep selected_date ⟨200, ⟨none⟩⟩
      = Except.ok { traces := [], title := some "No Steps Data Available" } ∧
    weightStep selected_date ⟨200, ⟨none⟩⟩
      = Except.ok { traces := [], title := some "No Weight Data Available" } ∧
    spo2Step selected_date ⟨200, ⟨none⟩⟩
      = Except.ok { traces := [], title := some "No SPO2 Data Available" } :=
  ⟨rfl, rfl, rfl⟩

/-! ## Claim C3 -/

/-- For a non-empty list the base value of the `Option.elim` over
`getLast?` is irrelevant. -/
theorem elim_getLast?_cons (b : SleepRecord) (bs : List SleepRecord) (x y : SleepStages) :
    ((b :: bs).getLast?).elim x recordStages = ((b :: bs).getLast?).elim y recordStages := by
  induction bs generalizing b with
  | nil => rfl
  | cons c cs ih => rw [List.getLast?_cons_cons]; exact ih c

/-- Characterization of the `for record in sleep_data.get("sleep", [])` loop
from an arbitrary starting state: records not flagged `isMainSleep` are
skipped entirely; every main-sleep record overwrites all four per-stage
minutes (so the last qualifying record wins); interval points of the
qualifying records are appended in record order. -/
theorem sleepFold_go (records : List SleepRecord) (a : SleepStages)
    (l : List (String × String)) :
    records.foldl sleepAccum (a, l) =
      (((records.filter fun r => r.isMainSleep).getLast?).elim a recordStages,
       l ++ ((records.filter fun r => r.isMainSleep).map recordPoints).flatten) := by
  induction records generalizing a l with
  | nil => simp
  | cons r rs ih =>
    by_cases h : r.isMainSleep
    · have hacc : sleepAccum (a, l) r = (recordStages r, l ++ recordPoints r) := by
        simp [sleepAccum, h]
      rw [List.foldl_cons, hacc, ih, List.filter_cons_of_pos (by simpa using h)]
      cases hf : rs.filter (fun r => r.isMainSleep) with
      | nil => simp
      | cons b bs =>
        rw [List.getLast?_cons_cons]
        refine Prod.ext ?_ ?_
        · exact elim_getLast?_cons b bs (recordStages r) a
        · simp [List.append_assoc]
    · have hacc : sleepAccum (a, l) r = (a, l) := by
        simp [sleepAccum, h]
      rw [List.foldl_cons, hacc, ih, List.filter_cons_of_neg (by simpa using h)]

/-- C3 as amended: only records flagged `isMainSleep` contribute to the
sleep reduction; across however many qualifying records exist, the
per-stage minutes are those of the LAST qualifying record (each record's
summary overwrites the previous one; they are not accumulated), and the
interval `(timestamp, stage)` points of the qualifying records are
concatenated in record order (they are not re-sorted by time). -/
theorem C3_sleep_reduction (records : List SleepRecord) :
    sleepFold records =
      (((records.filter fun r => r.isMainSleep).getLast?).elim initStages recordStages,
       ((records.filter fun r => r.isMainSleep).map recordPoints).flatten) := by
  simpa [sleepFold] using sleepFold_go records initStages []

/-- C3 counterexample: with two main-sleep records carrying 10 and 20 deep
minutes, the computed deep minutes are 20 (the second record overwrote the
first), not the accumulated 30 the claim states; and the flattened series
keeps record order, so its timestamps are not time-ordered (23:00:00
precedes 22:00:00 in the list). -/
theorem C3_counterexample :
    sleepFold [ceRecA, ceRecB] =
      (⟨20, 0, 0, 0⟩, [("23:00:00", "deep"), ("22:00:00", "light")]) ∧
    (sleepFold [ceRecA, ceRecB]).1.deep ≠ 10 + 20 ∧
    timeSorted (sleepFold [ceRecA, ceRecB]).2 = false :=
  ⟨by decide, by decide, by decide⟩

/-! ## Claim C6 -/

/-- C6 as amended: `POST /log` echoes the body unchanged inside
`{"status": "logged", "received": ...}` and appends exactly one line to the
log file; the line consists of the server-generated timestamp, the
separator, and the message `Received JSON: ` followed by Python's `str()`
rendering of the parsed body (not its JSON serialization). -/
theorem C6_log_echo_and_append (asctime : String) (log : LogFile) (data : Json) :
    (log_data asctime log data).2
      = Json.obj [("status", Json.str "logged"), ("received", data)] ∧
    (log_data asctime log data).1.lines
      = log.lines ++ [asctime ++ " - " ++ ("Received JSON: " ++ pyStr data)] ∧
    (log_data asctime log data).1.lines.length = log.lines.length + 1 ∧
    asctime.data <:+: (asctime ++ " - " ++ ("Received JSON: " ++ pyStr data)).data ∧
    (pyStr data).data <:+: (asctime ++ " - " ++ ("Received JSON: " ++ pyStr data)).data := by
  refine ⟨rfl, rfl, by simp [log_data, logging_info], ?_, ?_⟩
  · exact ⟨[], (" - " ++ ("Received JSON: " ++ pyStr data)).data, by simp⟩
  · exact ⟨(asctime ++ " - " ++ "Received JSON: ").data, [], by simp⟩

/-- C6 counterexample: for the body `{"a": 1}` the single appended line
contains Python's dict rendering `{'a': 1}` but NOT the JSON text
`{"a": 1}` the claim promises (the f-string interpolates `str(data)`,
which single-quotes keys). -/
theorem C6_counterexample :
    strContains ((log_data "2025-10-12 00:00:00" ⟨[]⟩ exBody).1.lines.getD 0 "") pyTextA
      = true ∧
    strContains ((log_data "2025-10-12 00:00:00" ⟨[]⟩ exBody).1.lines.getD 0 "") jsonTextA
      = false :=
  ⟨by decide, by decide⟩

/-! ## Claim C8 -/

/-- Records with the same `levels.data` produce the same series points. -/
theorem recordPoints_congr {r₁ r₂ : SleepRecord} (h : recordData r₁ = recordData r₂) :
    recordPoints r₁ = recordPoints r₂ := by
  unfold recordPoints
  rw [h]

/-- The flattened sleep series ignores `levels.summary`: related record
lists produce the same series. -/
theorem series_congr {l₁ l₂ : List SleepRecord}
    (h : List.Forall₂ SummaryOnlyDiff l₁ l₂) :
    ((l₁.filter fun r => r.isMainSleep).map recordPoints).flatten
      = ((l₂.filter fun r => r.isMainSleep).map recordPoints).flatten := by
  induction h with
  | nil => rfl
  | @cons a b t₁ t₂ hab htl ih =>
      obtain ⟨hm, hd⟩ := hab
      cases hb : b.isMainSleep with
      | false =>
          have ha : a.isMainSleep = false := by rw [hm, hb]
          simpa [List.filter_cons, ha, hb] using ih
      | true =>
          have ha : a.isMainSleep = true := by rw [hm, hb]
          simp [List.filter_cons, ha, hb, recordPoints_congr hd, ih]

/-- The sleep figure ignores `levels.summary`: responses with equal status
and related record lists produce the same figure. -/
theorem sleepStep_congr (o : List String → List String) (selected_date : String)
    {r₁ r₂ : Response SleepBody} (hst : r₁.status = r₂.status)
    (hrel : List.Forall₂ SummaryOnlyDiff (r₁.body.sleep.getD []) (r₂.body.sleep.getD [])) :
    sleepStep o selected_date r₁ = sleepStep o selected_date r₂ := by
  have hser : (sleepFold (r₁.body.sleep.getD [])).2 = (sleepFold (r₂.body.sleep.getD [])).2 := by
    unfold sleepFold
    rw [sleepFold_go (r₁.body.sleep.getD []) initStages [],
        sleepFold_go (r₂.body.sleep.getD []) initStages []]
    simpa using series_congr hrel
  simp only [sleepStep, hst, hser]

/-- C8: the per-stage minutes computed from `levels.summary` are dead
state — no output of the callback depends on them.  Two submissions whose
responses agree except in the sleep records' `levels.summary` objects
produce identical results. -/
theorem C8_summary_never_influences_output (o : List String → List String)
    (n_clicks : Nat) (token selected_date : String) (api₁ api₂ : ApiResponses)
    (hh : api₁.heart = api₂.heart) (hs : api₁.steps = api₂.steps)
    (ha : api₁.activity = api₂.activity) (hw : api₁.weight = api₂.weight)
    (hx : api₁.spo2 = api₂.spo2) (hst : api₁.sleep.status = api₂.sleep.status)
    (hrel : List.Forall₂ SummaryOnlyDiff (api₁.sleep.body.sleep.getD [])
      (api₂.sleep.body.sleep.getD [])) :
    fetch_fitbit_data o n_clicks token selected_date api₁
      = fetch_fitbit_data o n_clicks token selected_date api₂ := by
  have hsl := sleepStep_congr o selected_date hst hrel
  unfold fetch_fitbit_data
  rw [hh, hs, ha, hw, hx, hsl]

/-- Witness for C8: changing only the summary minutes (30 deep becomes 999
deep plus a wake entry) leaves the whole callback result unchanged. -/
theorem C8_witness :
    fetch_fitbit_data pySetDedup 1 "sometoken" "2025-05-10" apiAllGood
      = fetch_fitbit_data pySetDedup 1 "sometoken" "2025-05-10" apiAltSummary :=
  C8_summary_never_influences_output pySetDedup 1 "sometoken" "2025-05-10"
    apiAllGood apiAltSummary rfl rfl rfl rfl rfl rfl
    (List.Forall₂.cons ⟨rfl, rfl⟩ List.Forall₂.nil)

/-! ## Claim C9 -/

/-- A heart-rate step can only succeed on a 200 response. -/
theorem hrStep_ok_status {selected_date : String} {r : Response HeartBody} {f : Figure}
    (h : hrStep selected_date r = Except.ok f) : r.status = 200 := by
  by_contra hs
  unfold hrStep at h
  rw [if_pos hs] at h
  exact Except.noConfusion h

/-- A steps step can only succeed on a 200 response. -/
theorem stepsStep_ok_status {selected_date : String} {r : Response StepsBody} {f : Figure}
    (h : stepsStep selected_date r = Except.ok f) : r.status = 200 := by
  by_contra hs
  unfold stepsStep at h
  rw [if_pos hs] at h
  exact Except.noConfusion h

/-- A sleep step can only succeed on a 200 response. -/
theorem sleepStep_ok_status {o : List String → List String} {selected_date : String}
    {r : Response SleepBody} {f : Figure}
    (h : sleepStep o selected_date r = Except.ok f) : r.status = 200 := by
  by_contra hs
  unfold sleepStep at h
  rw [if_pos hs] at h
  exact Except.noConfusion h

/-- An activity step can only succeed on a 200 response. -/
theorem activityStep_ok_status {selected_date : String} {r : Response ActivityBody} {f : Figure}
    (h : activityStep selected_date r = Except.ok f) : r.status = 200 := by
  by_contra hs
  unfold activityStep at h
  rw [if_pos hs] at h
  exact Except.noConfusion h

/-- A weight step can only succeed on a 200 response. -/
theorem weightStep_ok_status {selected_date : String} {r : Response WeightBody} {f : Figure}
    (h : weightStep selected_date r = Except.ok f) : r.status = 200 := by
  by_contra hs
  unfold weightStep at h
  rw [if_pos hs] at h
  exact Except.noConfusion h

/-- An SPO2 step can only succeed on a 200 response. -/
theorem spo2Step_ok_status {selected_date : String} {r : Response Spo2Body} {f : Figure}
    (h : spo2Step selected_date r = Except.ok f) : r.status = 200 := by
  by_contra hs
  unfold spo2Step at h
  rw [if_pos hs] at h
  exact Except.noConfusion h

/-- C9: the issued-request trace is always a front run (`take n`) of the
fixed order heart, steps, sleep, activity, weight, spo2, and any issued
request whose response status is non-200 is the last request issued — no
later request in the order is ever issued after a failure. -/
theorem C9_sequential_first_failure_stops (o : List String → List String)
    (n_clicks : Nat) (token selected_date : String) (api : ApiResponses) :
    (∃ n, (fetch_fitbit_data o n_clicks token selected_date api).2 = issueOrder.take n) ∧
    (∀ i, i < (fetch_fitbit_data o n_clicks token selected_date api).2.length →
      statusOf api
          ((fetch_fitbit_data o n_clicks token selected_date api).2.getD i Metric.heart) ≠ 200 →
      (fetch_fitbit_data o n_clicks token selected_date api).2.length = i + 1) := by
  unfold fetch_fitbit_data
  by_cases h0 : token = "" ∨ selected_date = ""
  · rw [if_pos h0]
    refine ⟨⟨0, rfl⟩, ?_⟩
    intro i hi
    simp at hi
  · rw [if_neg h0]
    cases hhr : hrStep selected_date api.heart with
    | error e =>
        refine ⟨⟨1, rfl⟩, ?_⟩
        intro i hi hst
        simp only [List.length_cons, List.length_nil] at hi ⊢
        interval_cases i
        rfl
    | ok fhr =>
      cases hstp : stepsStep selected_date api.steps with
      | error e =>
          refine ⟨⟨2, rfl⟩, ?_⟩
          intro i hi hst
          simp only [List.length_cons, List.length_nil] at hi ⊢
          interval_cases i
          · exact absurd (hrStep_ok_status hhr) hst
          · rfl
      | ok fstp =>
        cases hsl : sleepStep o selected_date api.sleep with
        | error e =>
            refine ⟨⟨3, rfl⟩, ?_⟩
            intro i hi hst
            simp only [List.length_cons, List.length_nil] at hi ⊢
            interval_cases i
            · exact absurd (hrStep_ok_status hhr) hst
            · exact absurd (stepsStep_ok_status hstp) hst
            · rfl
        | ok fsl =>
          cases hac : activityStep selected_date api.activity with
          | error e =>
              refine ⟨⟨4, rfl⟩, ?_⟩
              intro i hi hst
              simp only [List.length_cons, List.length_nil] at hi ⊢
              interval_cases i
              · exact absurd (hrStep_ok_status hhr) hst
              · exact absurd (stepsStep_ok_status hstp) hst
              · exact absurd (sleepStep_ok_status hsl) hst
              · rfl
          | ok fac =>
            cases hwt : weightStep selected_date api.weight with
            | error e =>
                refine ⟨⟨5, rfl⟩, ?_⟩
                intro i hi hst
                simp only [List.length_cons, List.length_nil] at hi ⊢
                interval_cases i
                · exact absurd (hrStep_ok_status hhr) hst
                · exact absurd (stepsStep_ok_status hstp) hst
                · exact absurd (sleepStep_ok_status hsl) hst
                · exact absurd (activityStep_ok_status hac) hst
                · rfl
            | ok fwt =>
              cases hsp : spo2Step selected_date api.spo2 with
              | error e =>
                  refine ⟨⟨6, rfl⟩, ?_⟩
                  intro i hi hst
                  simp only [List.length_cons, List.length_nil] at hi ⊢
                  interval_cases i
                  · exact absurd (hrStep_ok_status hhr) hst
                  · exact absurd (stepsStep_ok_status hstp) hst
                  · exact absurd (sleepStep_ok_status hsl) hst
                  · exact absurd (activityStep_ok_status hac) hst
                  · exact absurd (weightStep_ok_status hwt) hst
                  · rfl
              | ok fsp =>
                  refine ⟨⟨6, rfl⟩, ?_⟩
                  intro i hi hst
                  simp only [List.length_cons, List.length_nil] at hi ⊢
                  interval_cases i
                  · exact absurd (hrStep_ok_status hhr) hst
                  · exact absurd (stepsStep_ok_status hstp) hst
                  · exact absurd (sleepStep_ok_status hsl) hst
                  · exact absurd (activityStep_ok_status hac) hst
                  · exact absurd (weightStep_ok_status hwt) hst
                  · exact absurd (spo2Step_ok_status hsp) hst

/-- Witness for C9 at a concrete input where the steps request fails with
status 500: the issued trace is the two-element front run of the order. -/
theorem C9_witness :
    (∃ n, (fetch_fitbit_data pySetDedup 1 "sometoken" "2025-05-10" apiStepsDown).2
      = issueOrder.take n) ∧
    (∀ i, i < (fetch_fitbit_data pySetDedup 1 "sometoken" "2025-05-10" apiStepsDown).2.length →
      statusOf apiStepsDown
          ((fetch_fitbit_data pySetDedup 1 "sometoken" "2025-05-10" apiStepsDown).2.getD i
            Metric.heart) ≠ 200 →
      (fetch_fitbit_data pySetDedup 1 "sometoken" "2025-05-10" apiStepsDown).2.length = i + 1) :=
  C9_sequential_first_failure_stops pySetDedup 1 "sometoken" "2025-05-10" apiStepsDown

/-! ## Claim C7 -/

/-- `FigSim` is reflexive. -/
theorem figSim_refl (f : Figure) : FigSim f f :=
  ⟨List.Perm.refl f.traces, rfl, rfl, rfl, rfl⟩

/-- `pySetDedup` is an admissible set iteration order. -/
theorem validPySetDedup : ValidSetOrder pySetDedup :=
  fun xs => ⟨List.nodup_dedup xs, fun _ => List.mem_dedup⟩

/-- `pySetDedupRev` is an admissible set iteration order. -/
theorem validPySetDedupRev : ValidSetOrder pySetDedupRev :=
  fun xs => ⟨List.nodup_reverse.mpr (List.nodup_dedup xs),
    fun a => by simp [pySetDedupRev, List.mem_dedup]⟩

/-- A non-200 sleep response makes the sleep step raise, for any set order. -/
theorem sleepStep_eq_of_bad_status (o : List String → List String)
    (selected_date : String) (r : Response SleepBody) (hs : r.status ≠ 200) :
    sleepStep o selected_date r = Except.error "Sleep data request failed" := by
  unfold sleepStep
  rw [if_pos hs]

/-- An empty flattened series yields the no-data sleep figure, for any set
order. -/
theorem sleepStep_eq_ok_empty (o : List String → List String)
    (selected_date : String) (r : Response SleepBody) (hs : r.status = 200)
    (hser : (sleepFold (r.body.sleep.getD [])).2 = []) :
    sleepStep o selected_date r = Except.ok { title := some "No Sleep Data Available" } := by
  simp [sleepStep, hs, hser]

/-- A non-empty flattened series yields the populated sleep figure. -/
theorem sleepStep_eq_ok_fig (o : List String → List String)
    (selected_date : String) (r : Response SleepBody) (hs : r.status = 200)
    (hser : (sleepFold (r.body.sleep.getD [])).2 ≠ []) :
    sleepStep o selected_date r
      = Except.ok (sleepFig o selected_date (sleepFold (r.body.sleep.getD [])).2) := by
  simp [sleepStep, hs, hser]

/-- Two admissible set orders enumerate the same stages up to permutation,
so the populated sleep figures they produce agree up to trace order. -/
theorem sleepFig_sim {o₁ o₂ : List String → List String}
    (h₁ : ValidSetOrder o₁) (h₂ : ValidSetOrder o₂) (selected_date : String)
    (ss : List (String × String)) :
    FigSim (sleepFig o₁ selected_date ss) (sleepFig o₂ selected_date ss) := by
  refine ⟨List.Perm.map _ ?_, rfl, rfl, rfl, rfl⟩
  have n₁ := (h₁ (ss.map (fun p => p.2))).1
  have n₂ := (h₂ (ss.map (fun p => p.2))).1
  have m₁ := (h₁ (ss.map (fun p => p.2))).2
  have m₂ := (h₂ (ss.map (fun p => p.2))).2
  exact (List.perm_ext_iff_of_nodup n₁ n₂).mpr (fun a => (m₁ a).trans (m₂ a).symm)

/-- C7 as amended: for identical (token, date) and identical responses,
two runs under any two admissible interpreter set orders (and any click
counts) issue the same requests, set the same error flag, and produce
pointwise similar figures — same titles, axes and trace multisets; only
the ORDER of the sleep chart's per-stage traces can differ, following the
interpreter's hash-seed-dependent set iteration order. -/
theorem C7_trace_order_only (o₁ o₂ : List String → List String)
    (h₁ : ValidSetOrder o₁) (h₂ : ValidSetOrder o₂) (n₁ n₂ : Nat)
    (token selected_date : String) (api : ApiResponses) :
    (fetch_fitbit_data o₁ n₁ token selected_date api).2
      = (fetch_fitbit_data o₂ n₂ token selected_date api).2 ∧
    (fetch_fitbit_data o₁ n₁ token selected_date api).1.showError
      = (fetch_fitbit_data o₂ n₂ token selected_date api).1.showError ∧
    List.Forall₂ FigSim
      (fetch_fitbit_data o₁ n₁ token selected_date api).1.figures
      (fetch_fitbit_data o₂ n₂ token selected_date api).1.figures := by
  unfold fetch_fitbit_data
  by_cases h0 : token = "" ∨ selected_date = ""
  · rw [if_pos h0, if_pos h0]
    exact ⟨rfl, rfl, List.Forall₂.cons (figSim_refl _) List.Forall₂.nil⟩
  · rw [if_neg h0, if_neg h0]
    cases hhr : hrStep selected_date api.heart with
    | error e => exact ⟨rfl, rfl, List.Forall₂.cons (figSim_refl _) List.Forall₂.nil⟩
    | ok fhr =>
      cases hstp : stepsStep selected_date api.steps with
      | error e => exact ⟨rfl, rfl, List.Forall₂.cons (figSim_refl _) List.Forall₂.nil⟩
      | ok fstp =>
        by_cases hs : api.sleep.status = 200
        · obtain ⟨sf₁, sf₂, hsl₁, hsl₂, hsim⟩ :
              ∃ sf₁ sf₂, sleepStep o₁ selected_date api.sleep = Except.ok sf₁ ∧
                sleepStep o₂ selected_date api.sleep = Except.ok sf₂ ∧ FigSim sf₁ sf₂ := by
            by_cases hser : (sleepFold (api.sleep.body.sleep.getD [])).2 = []
            · exact ⟨_, _, sleepStep_eq_ok_empty o₁ selected_date api.sleep hs hser,
                sleepStep_eq_ok_empty o₂ selected_date api.sleep hs hser, figSim_refl _⟩
            · exact ⟨_, _, sleepStep_eq_ok_fig o₁ selected_date api.sleep hs hser,
                sleepStep_eq_ok_fig o₂ selected_date api.sleep hs hser,
                sleepFig_sim h₁ h₂ selected_date _⟩
          rw [hsl₁, hsl₂]
          cases hac : activityStep selected_date api.activity with
          | error e => exact ⟨rfl, rfl, List.Forall₂.cons (figSim_refl _) List.Forall₂.nil⟩
          | ok fac =>
            cases hwt : weightStep selected_date api.weight with
            | error e => exact ⟨rfl, rfl, List.Forall₂.cons (figSim_refl _) List.Forall₂.nil⟩
            | ok fwt =>
              cases hsp : spo2Step selected_date api.spo2 with
              | error e =>
                  exact ⟨rfl, rfl, List.Forall₂.cons (figSim_refl _) List.Forall₂.nil⟩
              | ok fsp =>
                  exact ⟨rfl, rfl,
                    List.Forall₂.cons (figSim_refl _) (List.Forall₂.cons (figSim_refl _)
                      (List.Forall₂.cons (figSim_refl _) (List.Forall₂.cons (figSim_refl _)
                        (List.Forall₂.cons (figSim_refl _)
                          (List.Forall₂.cons hsim List.Forall₂.nil)))))⟩
        · rw [sleepStep_eq_of_bad_status o₁ selected_date api.sleep hs,
              sleepStep_eq_of_bad_status o₂ selected_date api.sleep hs]
          exact ⟨rfl, rfl, List.Forall₂.cons (figSim_refl _) List.Forall₂.nil⟩

/-- C7 counterexample: two admissible interpreter set orders (two possible
hash states) give DIFFERENT outputs for identical token, date, click count
and responses — the callback's result is not a function of its inputs and
the external responses alone. -/
theorem C7_counterexample :
    ValidSetOrder pySetDedup ∧ ValidSetOrder pySetDedupRev ∧
    fetch_fitbit_data pySetDedup 1 "sometoken" "2025-05-10" apiAllGood
      ≠ fetch_fitbit_data pySetDedupRev 1 "sometoken" "2025-05-10" apiAllGood :=
  ⟨validPySetDedup, validPySetDedupRev, by decide⟩

/-- Witness for C7 as amended, at the two concrete set orders and a
concrete successful submission. -/
theorem C7_witness :
    (fetch_fitbit_data pySetDedup 1 "sometoken" "2025-05-10" apiAllGood).2
      = (fetch_fitbit_data pySetDedupRev 2 "sometoken" "2025-05-10" apiAllGood).2 ∧
    (fetch_fitbit_data pySetDedup 1 "sometoken" "2025-05-10" apiAllGood).1.showError
      = (fetch_fitbit_data pySetDedupRev 2 "sometoken" "2025-05-10" apiAllGood).1.showError ∧
    List.Forall₂ FigSim
      (fetch_fitbit_data pySetDedup 1 "sometoken" "2025-05-10" apiAllGood).1.figures
      (fetch_fitbit_data pySetDedupRev 2 "sometoken" "2025-05-10" apiAllGood).1.figures :=
  C7_trace_order_only pySetDedup pySetDedupRev validPySetDedup validPySetDedupRev
    1 2 "sometoken" "2025-05-10" apiAllGood
